import Mathlib

/-!
Verification of the VirtualMachine update-authorization webhook.

The definitions below are a shallow embedding of the Go sources
`internal/webhook/v1/virtualmachine_webhook.go` and
`internal/webhook/v1/field_permission_checkers.go`.

Modelling conventions:
* Go pointers become `Option`; Go slices become `List` (nil and the empty
  slice are identified); Go maps used as string sets become `List String`
  queried through `contains`.
* `equality.Semantic.DeepEqual` on the modelled fields is structural
  equality, so it becomes `=` on the Lean structures (all of which derive
  `DecidableEq`).
* A Go nil-pointer dereference is modelled as `Option.none` in the result
  type of the function that would fault.
* The permission oracle (`PermissionChecker.CheckPermission`, backed by
  SubjectAccessReview) is abstracted as a function from the subresource
  string to `Except String Bool`; `Except.error` models the Go error path.
* `validateUpdate` additionally returns the list of subresource strings it
  queried on the oracle, in order, so that claims about which queries are
  issued can be stated; this trace component is the only instrumentation
  added to the source logic.
-/

/-- CD-ROM target configuration of a disk (`DiskDevice.CDRom`). -/
structure CDRomTarget where
  bus : String
  deriving DecidableEq, Repr

/-- A disk attachment (`kubevirtiov1.Disk`): a name, an optional CD-ROM
target (present exactly when the disk is an optical drive), and other
attachment configuration. -/
structure Disk where
  name : String
  cdrom : Option CDRomTarget
  bootOrder : Option Nat
  deriving DecidableEq, Repr

/-- DataVolume volume source, with its hotpluggable flag. -/
structure DataVolumeSource where
  sourceName : String
  hotpluggable : Bool
  deriving DecidableEq, Repr

/-- PersistentVolumeClaim volume source, with its hotpluggable flag. -/
structure PersistentVolumeClaimSource where
  claimName : String
  hotpluggable : Bool
  deriving DecidableEq, Repr

/-- A volume (`kubevirtiov1.Volume`): a name and at most one source. -/
structure Volume where
  name : String
  dataVolume : Option DataVolumeSource
  persistentVolumeClaim : Option PersistentVolumeClaimSource
  containerDisk : Option String
  deriving DecidableEq, Repr

/-- CPU topology (`spec.template.spec.domain.cpu`). -/
structure CPU where
  cores : Nat
  sockets : Nat
  threads : Nat
  deriving DecidableEq, Repr

/-- Resource requests and limits (`spec.template.spec.domain.resources`). -/
structure ResourceRequirements where
  requests : List (String × String)
  limits : List (String × String)
  deriving DecidableEq, Repr

/-- Device tree of the domain (`spec.template.spec.domain.devices`). -/
structure Devices where
  disks : List Disk
  filesystems : List String
  interfaces : List String
  gpus : List String
  hostDevices : List String
  watchdog : Option String
  tpm : Option String
  inputs : List String
  deriving DecidableEq, Repr

/-- Domain configuration (`spec.template.spec.domain`); `machineType`
stands for the domain fields outside every checker footprint. -/
structure Domain where
  devices : Devices
  cpu : Option CPU
  resources : ResourceRequirements
  machineType : String
  deriving DecidableEq, Repr

/-- VirtualMachineInstance spec (`spec.template.spec`); `nodeSelector`
stands for the template-spec fields outside every checker footprint. -/
structure VMISpec where
  domain : Domain
  volumes : List Volume
  networks : List String
  nodeSelector : List (String × String)
  deriving DecidableEq, Repr

/-- VirtualMachineInstance template (`spec.template`). -/
structure TemplateSpec where
  spec : VMISpec
  deriving DecidableEq, Repr

/-- VirtualMachine spec; `dataVolumeTemplates` stands for the spec fields
outside every checker footprint.  `template` is a Go pointer, hence
`Option`. -/
structure VMSpec where
  running : Option Bool
  runStrategy : Option String
  template : Option TemplateSpec
  dataVolumeTemplates : List String
  deriving DecidableEq, Repr

/-- Object metadata: user-facing fields plus the system-managed
bookkeeping fields cleared by `normalizeSystemMetadata`. -/
structure ObjectMeta where
  name : String
  nspace : String
  labels : List (String × String)
  annotations : List (String × String)
  finalizers : List String
  resourceVersion : String
  generation : Nat
  managedFields : List String
  selfLink : String
  uid : String
  creationTimestamp : Nat
  deletionTimestamp : Option Nat
  deletionGracePeriodSeconds : Option Int
  deriving DecidableEq, Repr

/-- A KubeVirt VirtualMachine, restricted to the regions the webhook
reads: `metadata` and `spec`. -/
structure VirtualMachine where
  metadata : ObjectMeta
  spec : VMSpec
  deriving DecidableEq, Repr

/-- The six field-permission checkers, as registered in
`SetupVirtualMachineWebhookWithManager`. -/
inductive Checker
  | network
  | compute
  | devices
  | lifecycle
  | cdrom
  | storage
  deriving DecidableEq, Repr

/-- `Name()` of each checker. -/
def checkerName : Checker → String
  | .network => "network"
  | .compute => "compute"
  | .devices => "devices"
  | .lifecycle => "lifecycle"
  | .cdrom => "cdrom"
  | .storage => "storage"

/-- `Subresource()` of each checker. -/
def subresource : Checker → String
  | .network => "virtualmachines/network-admin"
  | .compute => "virtualmachines/compute-admin"
  | .devices => "virtualmachines/devices-admin"
  | .lifecycle => "virtualmachines/lifecycle-admin"
  | .cdrom => "virtualmachines/cdrom-user"
  | .storage => "virtualmachines/storage-admin"

/-- The subresource checked for the global bypass in Step 1. -/
def fullAdminSub : String := "virtualmachines/full-admin"

/-- The checker order registered in the manager: independent checkers
first, then the hierarchical pair with the subset (cdrom) before the
superset (storage). -/
def checkerOrder : List Checker :=
  [.network, .compute, .devices, .lifecycle, .cdrom, .storage]

/-- Rebuild a VM with its template spec transformed, when the template is
present; a VM without a template is returned unchanged. -/
def withVMISpec (vm : VirtualMachine) (f : VMISpec → VMISpec) : VirtualMachine :=
  match vm.spec.template with
  | none => vm
  | some t => { vm with spec := { vm.spec with template := some { t with spec := f t.spec } } }

/-- `StoragePermissionChecker.HasChanged`.  The Go code dereferences
`Spec.Template` on both VMs with no nil guard, so a nil template on either
side is a nil-pointer dereference, modelled as `none`. -/
def storageHasChanged (oldVM newVM : VirtualMachine) : Option Bool :=
  match oldVM.spec.template, newVM.spec.template with
  | some ot, some nt =>
    some (decide (ot.spec.volumes ≠ nt.spec.volumes)
      || decide (ot.spec.domain.devices.disks ≠ nt.spec.domain.devices.disks)
      || decide (ot.spec.domain.devices.filesystems ≠ nt.spec.domain.devices.filesystems))
  | _, _ => none

/-- Field update performed by `StoragePermissionChecker.Neutralize` on one
copy: volumes, disks and filesystems are all cleared. -/
def eraseStorageFields (s : VMISpec) : VMISpec :=
  { s with
    volumes := [],
    domain := { s.domain with
      devices := { s.domain.devices with disks := [], filesystems := [] } } }

/-- `StoragePermissionChecker.Neutralize`: no-op when either template is
nil, otherwise clears all storage fields in both copies. -/
def storageNeutralize (oldVM newVM : VirtualMachine) : VirtualMachine × VirtualMachine :=
  if oldVM.spec.template.isNone || newVM.spec.template.isNone then (oldVM, newVM)
  else (withVMISpec oldVM eraseStorageFields, withVMISpec newVM eraseStorageFields)

/-- `CdromUserPermissionChecker.getCdromDisks`: all disks with a CD-ROM
target; empty when the template is nil. -/
def getCdromDisks (vm : VirtualMachine) : List Disk :=
  match vm.spec.template with
  | none => []
  | some t => t.spec.domain.devices.disks.filter (fun d => d.cdrom.isSome)

/-- `CdromUserPermissionChecker.isVolumeHotpluggable`: the volume's
DataVolume or PersistentVolumeClaim source is marked hotpluggable. -/
def isVolumeHotpluggable (v : Volume) : Bool :=
  (match v.dataVolume with
   | some dv => dv.hotpluggable
   | none => false)
  || (match v.persistentVolumeClaim with
      | some pvc => pvc.hotpluggable
      | none => false)

/-- `CdromUserPermissionChecker.getHotpluggableCdromVolumes`: volumes
whose name matches a CD-ROM disk and which are hotpluggable. -/
def getHotpluggableCdromVolumes (vm : VirtualMachine) : List Volume :=
  match vm.spec.template with
  | none => []
  | some t =>
    let cdromDiskNames :=
      (t.spec.domain.devices.disks.filter (fun d => d.cdrom.isSome)).map (fun d => d.name)
    t.spec.volumes.filter (fun v => cdromDiskNames.contains v.name && isVolumeHotpluggable v)

/-- `CdromUserPermissionChecker.getHotpluggableCdromVolumeNames` (the Go
set of names, as a list queried by membership). -/
def getHotpluggableCdromVolumeNames (vm : VirtualMachine) : List String :=
  (getHotpluggableCdromVolumes vm).map (fun v => v.name)

/-- `CdromUserPermissionChecker.filterOutVolumes`. -/
def filterOutVolumes (volumes : List Volume) (namesToRemove : List String) : List Volume :=
  volumes.filter (fun v => !namesToRemove.contains v.name)

/-- `CdromUserPermissionChecker.HasChanged`: if the CD-ROM disk
definitions differ the answer is false (not a cdrom-user operation);
otherwise compare the hotpluggable CD-ROM volumes. -/
def cdromHasChanged (oldVM newVM : VirtualMachine) : Bool :=
  if getCdromDisks oldVM = getCdromDisks newVM then
    decide (getHotpluggableCdromVolumes oldVM ≠ getHotpluggableCdromVolumes newVM)
  else false

/-- `CdromUserPermissionChecker.Neutralize`: no-op when either template is
nil, otherwise removes from both copies every volume whose name is a
hotpluggable CD-ROM volume name of either copy. -/
def cdromNeutralize (oldVM newVM : VirtualMachine) : VirtualMachine × VirtualMachine :=
  if oldVM.spec.template.isNone || newVM.spec.template.isNone then (oldVM, newVM)
  else
    let cdromNames := getHotpluggableCdromVolumeNames oldVM ++ getHotpluggableCdromVolumeNames newVM
    (withVMISpec oldVM (fun s => { s with volumes := filterOutVolumes s.volumes cdromNames }),
     withVMISpec newVM (fun s => { s with volumes := filterOutVolumes s.volumes cdromNames }))

/-- `NetworkPermissionChecker.HasChanged`: false when either template is
nil, otherwise compares interfaces and networks. -/
def networkHasChanged (oldVM newVM : VirtualMachine) : Bool :=
  match oldVM.spec.template, newVM.spec.template with
  | some ot, some nt =>
    decide (ot.spec.domain.devices.interfaces ≠ nt.spec.domain.devices.interfaces)
      || decide (ot.spec.networks ≠ nt.spec.networks)
  | _, _ => false

/-- Field update performed by `NetworkPermissionChecker.Neutralize`. -/
def eraseNetworkFields (s : VMISpec) : VMISpec :=
  { s with
    networks := [],
    domain := { s.domain with devices := { s.domain.devices with interfaces := [] } } }

/-- `NetworkPermissionChecker.Neutralize`. -/
def networkNeutralize (oldVM newVM : VirtualMachine) : VirtualMachine × VirtualMachine :=
  if oldVM.spec.template.isNone || newVM.spec.template.isNone then (oldVM, newVM)
  else (withVMISpec oldVM eraseNetworkFields, withVMISpec newVM eraseNetworkFields)

/-- `ComputePermissionChecker.HasChanged`: false when either template is
nil, otherwise compares CPU and resources. -/
def computeHasChanged (oldVM newVM : VirtualMachine) : Bool :=
  match oldVM.spec.template, newVM.spec.template with
  | some ot, some nt =>
    decide (ot.spec.domain.cpu ≠ nt.spec.domain.cpu)
      || decide (ot.spec.domain.resources ≠ nt.spec.domain.resources)
  | _, _ => false

/-- Field update performed by `ComputePermissionChecker.Neutralize`. -/
def eraseComputeFields (s : VMISpec) : VMISpec :=
  { s with domain := { s.domain with cpu := none, resources := ⟨[], []⟩ } }

/-- `ComputePermissionChecker.Neutralize`. -/
def computeNeutralize (oldVM newVM : VirtualMachine) : VirtualMachine × VirtualMachine :=
  if oldVM.spec.template.isNone || newVM.spec.template.isNone then (oldVM, newVM)
  else (withVMISpec oldVM eraseComputeFields, withVMISpec newVM eraseComputeFields)

/-- `DevicesPermissionChecker.HasChanged`: false when either template is
nil, otherwise compares GPUs, host devices, watchdog, TPM and inputs. -/
def devicesHasChanged (oldVM newVM : VirtualMachine) : Bool :=
  match oldVM.spec.template, newVM.spec.template with
  | some ot, some nt =>
    decide (ot.spec.domain.devices.gpus ≠ nt.spec.domain.devices.gpus)
      || decide (ot.spec.domain.devices.hostDevices ≠ nt.spec.domain.devices.hostDevices)
      || decide (ot.spec.domain.devices.watchdog ≠ nt.spec.domain.devices.watchdog)
      || decide (ot.spec.domain.devices.tpm ≠ nt.spec.domain.devices.tpm)
      || decide (ot.spec.domain.devices.inputs ≠ nt.spec.domain.devices.inputs)
  | _, _ => false

/-- Field update performed by `DevicesPermissionChecker.Neutralize`. -/
def eraseDevicesFields (s : VMISpec) : VMISpec :=
  { s with domain := { s.domain with
      devices := { s.domain.devices with
        gpus := [], hostDevices := [], watchdog := none, tpm := none, inputs := [] } } }

/-- `DevicesPermissionChecker.Neutralize`. -/
def devicesNeutralize (oldVM newVM : VirtualMachine) : VirtualMachine × VirtualMachine :=
  if oldVM.spec.template.isNone || newVM.spec.template.isNone then (oldVM, newVM)
  else (withVMISpec oldVM eraseDevicesFields, withVMISpec newVM eraseDevicesFields)

/-- `LifecyclePermissionChecker.HasChanged`: compares `spec.running` and
`spec.runStrategy` (no template access, hence no guard). -/
def lifecycleHasChanged (oldVM newVM : VirtualMachine) : Bool :=
  decide (oldVM.spec.running ≠ newVM.spec.running)
    || decide (oldVM.spec.runStrategy ≠ newVM.spec.runStrategy)

/-- `LifecyclePermissionChecker.Neutralize`: clears `spec.running` and
`spec.runStrategy` in both copies, unconditionally. -/
def lifecycleNeutralize (oldVM newVM : VirtualMachine) : VirtualMachine × VirtualMachine :=
  ({ oldVM with spec := { oldVM.spec with running := none, runStrategy := none } },
   { newVM with spec := { newVM.spec with running := none, runStrategy := none } })

/-- Dispatch `HasChanged`; `none` marks the nil-pointer fault of the
storage checker. -/
def hasChanged : Checker → VirtualMachine → VirtualMachine → Option Bool
  | .network, o, n => some (networkHasChanged o n)
  | .compute, o, n => some (computeHasChanged o n)
  | .devices, o, n => some (devicesHasChanged o n)
  | .lifecycle, o, n => some (lifecycleHasChanged o n)
  | .cdrom, o, n => some (cdromHasChanged o n)
  | .storage, o, n => storageHasChanged o n

/-- Dispatch `Neutralize`. -/
def neutralize : Checker → VirtualMachine → VirtualMachine → VirtualMachine × VirtualMachine
  | .network, o, n => networkNeutralize o n
  | .compute, o, n => computeNeutralize o n
  | .devices, o, n => devicesNeutralize o n
  | .lifecycle, o, n => lifecycleNeutralize o n
  | .cdrom, o, n => cdromNeutralize o n
  | .storage, o, n => storageNeutralize o n

/-- The permission oracle for one request (actor, namespace and VM name
fixed): maps a subresource string to the SubjectAccessReview answer, or to
an error when the query itself failed. -/
def Oracle : Type := String → Except String Bool

/-- `normalizeSystemMetadata`, per object: clears the system-managed
bookkeeping fields. -/
def normalizeSystemMetadata (m : ObjectMeta) : ObjectMeta :=
  { m with
    resourceVersion := "",
    generation := 0,
    managedFields := [],
    selfLink := "",
    uid := "",
    creationTimestamp := 0,
    deletionTimestamp := none,
    deletionGracePeriodSeconds := none }

/-- The webhook verdict: Allow, Deny over metadata, Deny over spec, or a
propagated error. -/
inductive Verdict
  | allow
  | denyMetadata
  | denySpec
  | error (msg : String)
  deriving DecidableEq, Repr

/-- Step 2 loop of `ValidateUpdate`: query the oracle for every checker
subresource in order, stopping at the first error.  Returns the recorded
permissions (or the wrapped error) together with the list of issued
queries. -/
def checkPerms (oracle : Oracle) : List Checker → Except String (List (Checker × Bool)) × List String
  | [] => (.ok [], [])
  | c :: rest =>
    match oracle (subresource c) with
    | .error e =>
      (.error ("failed to check " ++ checkerName c ++ " permission: " ++ e), [subresource c])
    | .ok b =>
      let (r, qs) := checkPerms oracle rest
      (r.map (fun l => (c, b) :: l), subresource c :: qs)

/-- Lookup in the recorded permission map (Go map read, defaulting to
false). -/
def lookupPerm (perms : List (Checker × Bool)) (c : Checker) : Bool :=
  ((perms.find? (fun p => p.1 == c)).map (fun p => p.2)).getD false

/-- Step 3 loop of `ValidateUpdate`: fold the checkers over the working
copies; a changed and granted category is neutralized, a changed and
ungranted one is left as is.  `none` propagates a checker fault. -/
def runCheckers (perms : Checker → Bool) :
    List Checker → VirtualMachine → VirtualMachine → Option (VirtualMachine × VirtualMachine)
  | [], o, n => some (o, n)
  | c :: rest, o, n =>
    match hasChanged c o n with
    | none => none
    | some changed =>
      if changed && perms c then
        let (o2, n2) := neutralize c o n
        runCheckers perms rest o2 n2
      else
        runCheckers perms rest o n

/-- Steps 4 and 5 of `ValidateUpdate`: normalize system metadata on both
copies, then Deny on a residual metadata diff (checked first), Deny on a
residual spec diff, else Allow. -/
def finalVerdict (o n : VirtualMachine) : Verdict :=
  let o2 : VirtualMachine := { o with metadata := normalizeSystemMetadata o.metadata }
  let n2 : VirtualMachine := { n with metadata := normalizeSystemMetadata n.metadata }
  let specChanged := decide (o2.spec ≠ n2.spec)
  let metadataChanged := decide (o2.metadata ≠ n2.metadata)
  if specChanged || metadataChanged then
    if metadataChanged then .denyMetadata else .denySpec
  else .allow

/-- `VirtualMachineCustomValidator.ValidateUpdate`, instrumented with the
list of oracle queries issued.  The first component is `none` exactly when
the Go code would panic in the checker loop. -/
def validateUpdate (oracle : Oracle) (oldVM newVM : VirtualMachine) :
    Option Verdict × List String :=
  match oracle fullAdminSub with
  | .error e =>
    (some (.error ("failed to check virtualmachines/full-admin permission: " ++ e)),
     [fullAdminSub])
  | .ok true => (some .allow, [fullAdminSub])
  | .ok false =>
    match checkPerms oracle checkerOrder with
    | (.error msg, qs) => (some (.error msg), fullAdminSub :: qs)
    | (.ok perms, qs) =>
      if !(perms.any (fun p => p.2)) then (some .allow, fullAdminSub :: qs)
      else
        match runCheckers (lookupPerm perms) checkerOrder oldVM newVM with
        | none => (none, fullAdminSub :: qs)
        | some (o, n) => (some (finalVerdict o n), fullAdminSub :: qs)

/-- An admission object: either a VirtualMachine or a value of some other
runtime type (identified by its printed type name). -/
inductive RuntimeObject
  | vm (v : VirtualMachine)
  | other (typeName : String)
  deriving DecidableEq, Repr

/-- `VirtualMachineCustomValidator.ValidateCreate`: type-check the object,
then allow unconditionally (no oracle in scope). -/
def validateCreate : RuntimeObject → Except String Unit
  | .vm _ => .ok ()
  | .other t => .error ("expected a VirtualMachine object but got " ++ t)

/-- `VirtualMachineCustomValidator.ValidateDelete`: type-check the object,
then allow unconditionally (no oracle in scope). -/
def validateDelete : RuntimeObject → Except String Unit
  | .vm _ => .ok ()
  | .other t => .error ("expected a VirtualMachine object but got " ++ t)

/-- Footprint fields of a checker, read with the absent template mapped to
the erased defaults; used to state that a footprint compares structurally
equal between two copies (spec section 4.2 table). -/
def footprintEqB (c : Checker) (o n : VirtualMachine) : Bool :=
  let os := (o.spec.template.map (fun t => t.spec)).getD ⟨⟨⟨[], [], [], [], [], none, none, []⟩, none, ⟨[], []⟩, ""⟩, [], [], []⟩
  let ns := (n.spec.template.map (fun t => t.spec)).getD ⟨⟨⟨[], [], [], [], [], none, none, []⟩, none, ⟨[], []⟩, ""⟩, [], [], []⟩
  match c with
  | .storage =>
    decide (os.volumes = ns.volumes)
      && decide (os.domain.devices.disks = ns.domain.devices.disks)
      && decide (os.domain.devices.filesystems = ns.domain.devices.filesystems)
  | .network =>
    decide (os.domain.devices.interfaces = ns.domain.devices.interfaces)
      && decide (os.networks = ns.networks)
  | .compute =>
    decide (os.domain.cpu = ns.domain.cpu) && decide (os.domain.resources = ns.domain.resources)
  | .devices =>
    decide (os.domain.devices.gpus = ns.domain.devices.gpus)
      && decide (os.domain.devices.hostDevices = ns.domain.devices.hostDevices)
      && decide (os.domain.devices.watchdog = ns.domain.devices.watchdog)
      && decide (os.domain.devices.tpm = ns.domain.devices.tpm)
      && decide (os.domain.devices.inputs = ns.domain.devices.inputs)
  | .lifecycle =>
    decide (o.spec.running = n.spec.running)
      && decide (o.spec.runStrategy = n.spec.runStrategy)
  | .cdrom =>
    decide (getHotpluggableCdromVolumes o = getHotpluggableCdromVolumes n)

/-! Concrete fixtures used by witnesses and counterexamples. -/

/-- Metadata with empty system-managed fields. -/
def emptyMeta : ObjectMeta := ⟨"vm1", "ns1", [], [], [], "", 0, [], "", "", 0, none, none⟩

/-- A small device tree with one plain disk and one interface. -/
def sampleDevices : Devices := ⟨[⟨"d1", none, none⟩], [], ["if1"], [], [], none, none, []⟩

/-- A small template spec: two-core CPU, one container-disk volume, one
network. -/
def sampleVMI : VMISpec :=
  ⟨⟨sampleDevices, some ⟨2, 1, 1⟩, ⟨[], []⟩, "q35"⟩, [⟨"v1", none, none, some "img"⟩], ["net1"], []⟩

/-- Baseline VM fixture. -/
def vmBase : VirtualMachine := ⟨emptyMeta, ⟨some true, none, some ⟨sampleVMI⟩, []⟩⟩

/-- `vmBase` with the CPU changed to four cores (a compute-only diff). -/
def vmCores4 : VirtualMachine :=
  ⟨emptyMeta, ⟨some true, none,
    some ⟨{ sampleVMI with domain := { sampleVMI.domain with cpu := some ⟨4, 1, 1⟩ } }⟩, []⟩⟩

/-- A VM whose `spec.template` is nil. -/
def vmNoTemplate : VirtualMachine := ⟨emptyMeta, ⟨some true, none, none, []⟩⟩

/-- `vmCores4` with a user label added (a metadata diff on top of the
compute diff). -/
def vmCores4Lab : VirtualMachine :=
  { vmCores4 with metadata := { emptyMeta with labels := [("a", "b")] } }

/-- Oracle fixture granting nothing. -/
def oracleNone : Oracle := fun _ => .ok false

/-- Oracle fixture granting exactly storage-admin. -/
def oracleStorage : Oracle := fun s => .ok (s == "virtualmachines/storage-admin")

/-- Oracle fixture granting exactly full-admin. -/
def oracleFull : Oracle := fun s => .ok (s == fullAdminSub)

/-- Oracle fixture failing every query. -/
def oracleErr : Oracle := fun _ => .error "boom"

/-- A CD-ROM disk attachment fixture. -/
def cdromDisk (nm : String) : Disk := ⟨nm, some ⟨"sata"⟩, none⟩

/-- A hotpluggable DataVolume-backed volume fixture. -/
def hotVol (nm src : String) : Volume := ⟨nm, some ⟨src, true⟩, none, none⟩

/-- VM with one CD-ROM drive with media `iso1` loaded. -/
def vmCd1 : VirtualMachine :=
  ⟨emptyMeta, ⟨some true, none,
    some ⟨⟨⟨⟨[cdromDisk "cd0"], [], [], [], [], none, none, []⟩, none, ⟨[], []⟩, "q35"⟩,
      [hotVol "cd0" "iso1"], [], []⟩⟩, []⟩⟩

/-- VM with two CD-ROM drives and different media: both the disk set and
the hotpluggable volumes differ from `vmCd1`. -/
def vmCd2 : VirtualMachine :=
  ⟨emptyMeta, ⟨some true, none,
    some ⟨⟨⟨⟨[cdromDisk "cd0", cdromDisk "cd1"], [], [], [], [], none, none, []⟩, none, ⟨[], []⟩, "q35"⟩,
      [hotVol "cd0" "iso2", hotVol "cd1" "iso3"], [], []⟩⟩, []⟩⟩

/-- The Step 2 answers of the storage-only oracle fixture. -/
def storagePerms : List (Checker × Bool) :=
  [(.network, false), (.compute, false), (.devices, false),
   (.lifecycle, false), (.cdrom, false), (.storage, true)]

/-- Oracle fixture granting exactly cdrom-user and storage-admin. -/
def oracleCdromStorage : Oracle := fun s =>
  .ok (s == "virtualmachines/cdrom-user" || s == "virtualmachines/storage-admin")

/-- `vmCd1` with different media in the cd0 drive (a media swap). -/
def vmCd3 : VirtualMachine :=
  ⟨emptyMeta, ⟨some true, none,
    some ⟨⟨⟨⟨[cdromDisk "cd0"], [], [], [], [], none, none, []⟩, none, ⟨[], []⟩, "q35"⟩,
      [hotVol "cd0" "iso9"], [], []⟩⟩, []⟩⟩

/-! Helper lemmas. -/

/-- `finalVerdict` characterized by the claim formula: metadata violation
first, then spec violation, else allow. -/
theorem finalVerdict_eq (o n : VirtualMachine) :
    finalVerdict o n =
      if normalizeSystemMetadata o.metadata ≠ normalizeSystemMetadata n.metadata then
        Verdict.denyMetadata
      else if o.spec ≠ n.spec then Verdict.denySpec
      else Verdict.allow := by
  by_cases hm : normalizeSystemMetadata o.metadata = normalizeSystemMetadata n.metadata <;>
    by_cases hs : o.spec = n.spec <;>
    simp [finalVerdict, hm, hs]

/-- Evaluation of the Step 2 loop when every query succeeds. -/
theorem checkPerms_ok (oracle : Oracle) (b : Checker → Bool)
    (h : ∀ c ∈ checkerOrder, oracle (subresource c) = .ok (b c)) :
    checkPerms oracle checkerOrder =
      (.ok (checkerOrder.map (fun c => (c, b c))), checkerOrder.map subresource) := by
  have h1 := h .network (by simp [checkerOrder])
  have h2 := h .compute (by simp [checkerOrder])
  have h3 := h .devices (by simp [checkerOrder])
  have h4 := h .lifecycle (by simp [checkerOrder])
  have h5 := h .cdrom (by simp [checkerOrder])
  have h6 := h .storage (by simp [checkerOrder])
  simp [checkPerms, checkerOrder, h1, h2, h3, h4, h5, h6, Except.map]

/-- The Step 2 loop surfaces an error whenever some queried token errors. -/
theorem checkPerms_error_of_exists (oracle : Oracle) :
    ∀ l : List Checker, (∃ c ∈ l, ∃ e, oracle (subresource c) = .error e) →
    ∃ msg qs, checkPerms oracle l = (.error msg, qs) := by
  intro l
  induction l with
  | nil =>
    rintro ⟨c, hc, _⟩
    cases hc
  | cons c rest ih =>
    rintro ⟨c2, hc2, e, he⟩
    match hoc : oracle (subresource c) with
    | .error e2 =>
      exact ⟨"failed to check " ++ checkerName c ++ " permission: " ++ e2,
        [subresource c], by simp [checkPerms, hoc]⟩
    | .ok b =>
      have hmem : c2 ∈ rest := by
        rcases List.mem_cons.mp hc2 with h | h
        · subst h
          rw [hoc] at he
          cases he
        · exact h
      obtain ⟨msg, qs, hre⟩ := ih ⟨c2, hmem, e, he⟩
      exact ⟨msg, subresource c :: qs, by simp [checkPerms, hoc, hre, Except.map]⟩

/-! Claim theorems. -/

/-- C1: whenever the oracle answers true for the full-admin token,
`ValidateUpdate` returns Allow with exactly one oracle query issued (the
full-admin one), for arbitrary old/new snapshots — so no checker runs, no
copies are compared, and no metadata normalization affects the result. -/
theorem full_admin_bypass (oracle : Oracle) (oldVM newVM : VirtualMachine)
    (h : oracle fullAdminSub = .ok true) :
    validateUpdate oracle oldVM newVM = (some Verdict.allow, [fullAdminSub]) := by
  simp [validateUpdate, h]

theorem full_admin_bypass_witness :
    validateUpdate oracleFull vmBase vmCores4Lab = (some Verdict.allow, [fullAdminSub]) :=
  full_admin_bypass oracleFull vmBase vmCores4Lab rfl

/-- C2: when the actor lacks full-admin and the oracle answers false for
every granular checker token, `ValidateUpdate` returns Allow for any diff,
with the query trace showing exactly the seven Step 1/Step 2 queries and
nothing else — no checker loop, no copies, no normalization. -/
theorem no_grant_backward_compat (oracle : Oracle) (oldVM newVM : VirtualMachine)
    (h : oracle fullAdminSub = .ok false)
    (hall : ∀ c ∈ checkerOrder, oracle (subresource c) = .ok false) :
    validateUpdate oracle oldVM newVM =
      (some Verdict.allow, fullAdminSub :: checkerOrder.map subresource) := by
  have hcp := checkPerms_ok oracle (fun _ => false) hall
  simp only [validateUpdate, h]
  rw [hcp]
  simp [checkerOrder]

theorem no_grant_backward_compat_witness :
    validateUpdate oracleNone vmBase vmCores4Lab =
      (some Verdict.allow, fullAdminSub :: checkerOrder.map subresource) :=
  no_grant_backward_compat oracleNone vmBase vmCores4Lab rfl
    (by intro c _; cases c <;> rfl)

/-- C5: CdromMedia's `HasChanged` returns false whenever the CD-ROM disk
attachments extracted from the two snapshots differ; only when they are
equal does it return the comparison of the hotpluggable CD-ROM-bound
volumes. -/
theorem cdrom_disk_guard (oldVM newVM : VirtualMachine) :
    (getCdromDisks oldVM ≠ getCdromDisks newVM → cdromHasChanged oldVM newVM = false) ∧
    (getCdromDisks oldVM = getCdromDisks newVM →
      cdromHasChanged oldVM newVM
        = decide (getHotpluggableCdromVolumes oldVM ≠ getHotpluggableCdromVolumes newVM)) := by
  constructor <;> intro h <;> simp [cdromHasChanged, h]

theorem cdrom_disk_guard_witness :
    cdromHasChanged vmCd1 vmCd2 = false :=
  (cdrom_disk_guard vmCd1 vmCd2).1 (by decide)

/-- C6: an oracle error on the Step 1 full-admin query or on any Step 2
checker query makes `ValidateUpdate` return an error verdict — never
Allow or Deny — and the outcome, including the query trace, is the same
for every pair of snapshots, so no later pipeline step runs. -/
theorem oracle_error_propagates (oracle : Oracle)
    (h : (∃ e, oracle fullAdminSub = .error e) ∨
      (oracle fullAdminSub = .ok false ∧
        ∃ c ∈ checkerOrder, ∃ e, oracle (subresource c) = .error e)) :
    ∃ msg qs, ∀ oldVM newVM : VirtualMachine,
      validateUpdate oracle oldVM newVM = (some (Verdict.error msg), qs) := by
  rcases h with ⟨e, he⟩ | ⟨hfa, hex⟩
  · exact ⟨"failed to check virtualmachines/full-admin permission: " ++ e,
      [fullAdminSub], fun o n => by simp [validateUpdate, he]⟩
  · obtain ⟨msg, qs, hcp⟩ := checkPerms_error_of_exists oracle checkerOrder hex
    exact ⟨msg, fullAdminSub :: qs, fun o n => by simp [validateUpdate, hfa, hcp]⟩

theorem oracle_error_propagates_witness :
    ∃ msg qs, ∀ oldVM newVM : VirtualMachine,
      validateUpdate oracleErr oldVM newVM = (some (Verdict.error msg), qs) :=
  oracle_error_propagates oracleErr (Or.inl ⟨"boom", rfl⟩)

/-- C9 (code evaluated at the failing input): on a snapshot pair whose old
side has a nil `spec.template`, the storage checker's `HasChanged` faults
(nil-pointer dereference, modelled as `none`) while all five other
checkers return a boolean, and the Step 3 loop of `ValidateUpdate`
therefore crashes once the actor holds a granular grant. -/
theorem storage_haschanged_nil_template_faults :
    hasChanged Checker.storage vmNoTemplate vmBase = none ∧
    hasChanged Checker.network vmNoTemplate vmBase = some false ∧
    hasChanged Checker.compute vmNoTemplate vmBase = some false ∧
    hasChanged Checker.devices vmNoTemplate vmBase = some false ∧
    hasChanged Checker.lifecycle vmNoTemplate vmBase = some false ∧
    hasChanged Checker.cdrom vmNoTemplate vmBase = some false ∧
    (validateUpdate oracleStorage vmNoTemplate vmBase).1 = none := by
  decide

/-- C10: `ValidateCreate` and `ValidateDelete` allow every VirtualMachine
without consulting the oracle (their definitions take none), and return an
error — not a verdict — on any non-VirtualMachine object. -/
theorem create_delete_always_allowed :
    (∀ v : VirtualMachine,
      validateCreate (RuntimeObject.vm v) = .ok () ∧
        validateDelete (RuntimeObject.vm v) = .ok ()) ∧
    (∀ t : String,
      validateCreate (RuntimeObject.other t)
          = .error ("expected a VirtualMachine object but got " ++ t) ∧
        validateDelete (RuntimeObject.other t)
          = .error ("expected a VirtualMachine object but got " ++ t)) :=
  ⟨fun _ => ⟨rfl, rfl⟩, fun _ => ⟨rfl, rfl⟩⟩

/-- C3: whenever `ValidateUpdate` reaches Step 5 (full-admin denied, all
Step 2 queries succeeded with at least one grant, and the checker loop
returned copies `o`, `n`), the verdict is exactly: Deny with the metadata
reason when the normalized metadata of the copies differ (checked first),
else Deny with the spec reason when their specs differ, else Allow. -/
theorem residual_diff_verdict (oracle : Oracle) (oldVM newVM o n : VirtualMachine)
    (perms : List (Checker × Bool)) (qs : List String)
    (h1 : oracle fullAdminSub = .ok false)
    (h2 : checkPerms oracle checkerOrder = (.ok perms, qs))
    (h3 : perms.any (fun p => p.2) = true)
    (h4 : runCheckers (lookupPerm perms) checkerOrder oldVM newVM = some (o, n)) :
    validateUpdate oracle oldVM newVM =
      (some (if normalizeSystemMetadata o.metadata ≠ normalizeSystemMetadata n.metadata then
          Verdict.denyMetadata
        else if o.spec ≠ n.spec then Verdict.denySpec
        else Verdict.allow),
       fullAdminSub :: qs) := by
  simp only [validateUpdate, h1]
  rw [h2]
  simp only [h3]
  rw [h4]
  simp [finalVerdict_eq]

theorem residual_diff_verdict_witness :
    validateUpdate oracleStorage vmBase vmCores4 =
      (some (if normalizeSystemMetadata vmBase.metadata
              ≠ normalizeSystemMetadata vmCores4.metadata then
          Verdict.denyMetadata
        else if vmBase.spec ≠ vmCores4.spec then Verdict.denySpec
        else Verdict.allow),
       fullAdminSub :: checkerOrder.map subresource) :=
  residual_diff_verdict oracleStorage vmBase vmCores4 vmBase vmCores4 storagePerms
    (checkerOrder.map subresource) rfl rfl rfl rfl


/-- Lookup in the permission map recorded by Step 2 returns the oracle
answer of each checker. -/
theorem lookupPerm_map (b : Checker → Bool) (c : Checker) :
    lookupPerm (checkerOrder.map (fun c2 => (c2, b c2))) c = b c := by
  cases c <;> rfl

/-- No checker reports a change between snapshots with equal specs. -/
theorem hasChanged_of_spec_eq (c : Checker) (o n : VirtualMachine)
    (h : o.spec = n.spec) : hasChanged c o n ≠ some true := by
  cases c <;>
    simp only [hasChanged, networkHasChanged, computeHasChanged, devicesHasChanged,
      lifecycleHasChanged, cdromHasChanged, storageHasChanged, getCdromDisks,
      getHotpluggableCdromVolumes, h] <;>
    rcases n.spec.template with _ | t <;> simp

/-- The Step 3 loop leaves the copies untouched when every checker in the
list either reports no change or lacks its grant. -/
theorem runCheckers_no_op (perms : Checker → Bool) :
    ∀ (l : List Checker) (o n : VirtualMachine),
    (∀ c2 ∈ l, ∃ b2, hasChanged c2 o n = some b2 ∧ (b2 && perms c2) = false) →
    runCheckers perms l o n = some (o, n) := by
  intro l
  induction l with
  | nil => intro o n _; rfl
  | cons c rest ih =>
    intro o n h
    obtain ⟨b2, hb, hf⟩ := h c (List.mem_cons_self c rest)
    have hrest := ih o n (fun c2 hm => h c2 (List.mem_cons_of_mem c hm))
    simp [runCheckers, hb, hf, hrest]

/-- C7 counterexample: a compute-only footprint diff between `vmBase` and
`vmCores4` (exactly one checker reports a change) with an actor holding no
token at all yields Allow, not Deny(spec-violation); and the same diff
plus a user label, with an actor holding only storage-admin, yields
Deny(metadata-violation), not Deny(spec-violation). -/
theorem single_unauthorized_category_counterexample :
    hasChanged Checker.compute vmBase vmCores4 = some true ∧
    hasChanged Checker.network vmBase vmCores4 = some false ∧
    hasChanged Checker.devices vmBase vmCores4 = some false ∧
    hasChanged Checker.lifecycle vmBase vmCores4 = some false ∧
    hasChanged Checker.cdrom vmBase vmCores4 = some false ∧
    hasChanged Checker.storage vmBase vmCores4 = some false ∧
    (validateUpdate oracleNone vmBase vmCores4).1 = some Verdict.allow ∧
    (validateUpdate oracleStorage vmBase vmCores4Lab).1 = some Verdict.denyMetadata := by
  decide

/-- C7 as amended: if exactly one checker reports a change between the
snapshots, the system-normalized metadata agree, every Step 2 query
succeeds, and the actor lacks full-admin and the changed checker's token
but holds at least one granular token, the verdict is Deny with the spec
reason. -/
theorem single_unauthorized_category_denies (oracle : Oracle) (oldVM newVM : VirtualMachine)
    (c : Checker) (b : Checker → Bool)
    (hfa : oracle fullAdminSub = .ok false)
    (hok : ∀ c2 ∈ checkerOrder, oracle (subresource c2) = .ok (b c2))
    (hsome : ∃ c0 ∈ checkerOrder, b c0 = true)
    (hcb : b c = false)
    (hc : hasChanged c oldVM newVM = some true)
    (hothers : ∀ c2 ∈ checkerOrder, c2 ≠ c → hasChanged c2 oldVM newVM = some false)
    (hmeta : normalizeSystemMetadata oldVM.metadata = normalizeSystemMetadata newVM.metadata) :
    (validateUpdate oracle oldVM newVM).1 = some Verdict.denySpec := by
  have hcp := checkPerms_ok oracle b hok
  have hany : (checkerOrder.map (fun c2 => (c2, b c2))).any (fun p => p.2) = true := by
    obtain ⟨c0, hm, hb⟩ := hsome
    exact List.any_eq_true.mpr ⟨(c0, b c0), List.mem_map_of_mem _ hm, hb⟩
  have hspec : oldVM.spec ≠ newVM.spec := by
    intro he
    exact hasChanged_of_spec_eq c oldVM newVM he hc
  have hrun : runCheckers (lookupPerm (checkerOrder.map (fun c2 => (c2, b c2))))
      checkerOrder oldVM newVM = some (oldVM, newVM) := by
    apply runCheckers_no_op
    intro c2 hm
    by_cases hce : c2 = c
    · subst hce
      exact ⟨true, hc, by simp [lookupPerm_map, hcb]⟩
    · exact ⟨false, hothers c2 hm hce, by simp⟩
  simp only [validateUpdate, hfa]
  rw [hcp]
  simp only [hany, Bool.not_true, Bool.false_eq_true, if_false]
  rw [hrun]
  simp [finalVerdict_eq, hmeta, hspec]

theorem single_unauthorized_category_denies_witness :
    (validateUpdate oracleStorage vmBase vmCores4).1 = some Verdict.denySpec :=
  single_unauthorized_category_denies oracleStorage vmBase vmCores4 Checker.compute
    (fun c2 => c2 == Checker.storage) rfl
    (by intro c2 _; cases c2 <;> rfl)
    ⟨Checker.storage, by decide, rfl⟩
    rfl (by decide) (by decide) rfl

/-- `withVMISpec` on a VM with a present template rewrites the template
spec through the given update. -/
theorem withVMISpec_spec_template (vm : VirtualMachine) (f : VMISpec → VMISpec)
    (t : TemplateSpec) (h : vm.spec.template = some t) :
    (withVMISpec vm f).spec.template = some ⟨f t.spec⟩ := by
  simp [withVMISpec, h]

/-- Two `withVMISpec` updates compose. -/
theorem withVMISpec_comp (vm : VirtualMachine) (f g : VMISpec → VMISpec) :
    withVMISpec (withVMISpec vm g) f = withVMISpec vm (fun s => f (g s)) := by
  rcases h : vm.spec.template with _ | t <;> simp [withVMISpec, h]

/-- C8 counterexample: on a pair whose old copy has a nil `spec.template`
and whose new copy carries a volume, the storage checker's Neutralize is a
no-op (its nil guard fires), so afterwards the storage footprint fields of
the two copies still differ. -/
theorem neutralize_nil_template_counterexample :
    neutralize Checker.storage vmNoTemplate vmBase = (vmNoTemplate, vmBase) ∧
    footprintEqB Checker.storage
      (neutralize Checker.storage vmNoTemplate vmBase).1
      (neutralize Checker.storage vmNoTemplate vmBase).2 = false := by
  decide

/-- After removing a superset of its own hotpluggable CD-ROM volume
names, a copy has no hotpluggable CD-ROM volumes left. -/
theorem hotpluggable_after_filterOut (vm : VirtualMachine) (t : TemplateSpec) (U : List String)
    (h : vm.spec.template = some t)
    (hU : ∀ nm ∈ getHotpluggableCdromVolumeNames vm, nm ∈ U) :
    getHotpluggableCdromVolumes
      (withVMISpec vm (fun s => { s with volumes := filterOutVolumes s.volumes U })) = [] := by
  have htmpl := withVMISpec_spec_template vm
    (fun s => { s with volumes := filterOutVolumes s.volumes U }) t h
  simp only [getHotpluggableCdromVolumes, htmpl]
  rw [List.filter_eq_nil_iff]
  intro v hv
  simp only [filterOutVolumes, List.mem_filter] at hv
  obtain ⟨hvm, hnc⟩ := hv
  intro hp
  have hvin : v ∈ getHotpluggableCdromVolumes vm := by
    simp only [getHotpluggableCdromVolumes, h]
    exact List.mem_filter.mpr ⟨hvm, hp⟩
  have hname : v.name ∈ U := by
    apply hU
    simp only [getHotpluggableCdromVolumeNames, List.mem_map]
    exact ⟨v, hvin, rfl⟩
  simp at hnc
  exact hnc hname

/-- Filtering out the empty name set leaves a VM unchanged. -/
theorem withVMISpec_filter_nil (vm : VirtualMachine) :
    withVMISpec vm (fun s => { s with volumes := filterOutVolumes s.volumes [] }) = vm := by
  obtain ⟨m, ⟨r, rs, tmpl, dvt⟩⟩ := vm
  rcases tmpl with _ | ⟨⟨dom, vols, nets, nsel⟩⟩ <;> simp [withVMISpec, filterOutVolumes]

/-- C8 as amended: for every checker, when both copies carry a template
(for Lifecycle: unconditionally), one run of Neutralize makes the
checker's footprint fields compare structurally equal between the two
copies, and a second run of Neutralize leaves both copies unchanged. -/
theorem neutralize_erases_and_idempotent (c : Checker) (o n : VirtualMachine)
    (h : c = Checker.lifecycle ∨ (o.spec.template.isSome ∧ n.spec.template.isSome)) :
    footprintEqB c (neutralize c o n).1 (neutralize c o n).2 = true ∧
    neutralize c (neutralize c o n).1 (neutralize c o n).2 = neutralize c o n := by
  cases c with
  | lifecycle =>
    constructor
    · simp [neutralize, lifecycleNeutralize, footprintEqB]
    · simp [neutralize, lifecycleNeutralize]
  | storage =>
    rcases h with hL | ⟨ho, hn⟩
    · cases hL
    obtain ⟨ot, hot⟩ := Option.isSome_iff_exists.mp ho
    obtain ⟨nt, hnt⟩ := Option.isSome_iff_exists.mp hn
    have hne : neutralize Checker.storage o n
        = (withVMISpec o eraseStorageFields, withVMISpec n eraseStorageFields) := by
      simp [neutralize, storageNeutralize, hot, hnt]
    have ht1 := withVMISpec_spec_template o eraseStorageFields ot hot
    have ht2 := withVMISpec_spec_template n eraseStorageFields nt hnt
    rw [hne]
    constructor
    · simp [footprintEqB, ht1, ht2, eraseStorageFields]
    · simp only [neutralize, storageNeutralize, ht1, ht2, Option.isNone_some,
        Bool.or_self, Bool.false_eq_true, if_false, withVMISpec_comp]
      rfl
  | network =>
    rcases h with hL | ⟨ho, hn⟩
    · cases hL
    obtain ⟨ot, hot⟩ := Option.isSome_iff_exists.mp ho
    obtain ⟨nt, hnt⟩ := Option.isSome_iff_exists.mp hn
    have hne : neutralize Checker.network o n
        = (withVMISpec o eraseNetworkFields, withVMISpec n eraseNetworkFields) := by
      simp [neutralize, networkNeutralize, hot, hnt]
    have ht1 := withVMISpec_spec_template o eraseNetworkFields ot hot
    have ht2 := withVMISpec_spec_template n eraseNetworkFields nt hnt
    rw [hne]
    constructor
    · simp [footprintEqB, ht1, ht2, eraseNetworkFields]
    · simp only [neutralize, networkNeutralize, ht1, ht2, Option.isNone_some,
        Bool.or_self, Bool.false_eq_true, if_false, withVMISpec_comp]
      rfl
  | compute =>
    rcases h with hL | ⟨ho, hn⟩
    · cases hL
    obtain ⟨ot, hot⟩ := Option.isSome_iff_exists.mp ho
    obtain ⟨nt, hnt⟩ := Option.isSome_iff_exists.mp hn
    have hne : neutralize Checker.compute o n
        = (withVMISpec o eraseComputeFields, withVMISpec n eraseComputeFields) := by
      simp [neutralize, computeNeutralize, hot, hnt]
    have ht1 := withVMISpec_spec_template o eraseComputeFields ot hot
    have ht2 := withVMISpec_spec_template n eraseComputeFields nt hnt
    rw [hne]
    constructor
    · simp [footprintEqB, ht1, ht2, eraseComputeFields]
    · simp only [neutralize, computeNeutralize, ht1, ht2, Option.isNone_some,
        Bool.or_self, Bool.false_eq_true, if_false, withVMISpec_comp]
      rfl
  | devices =>
    rcases h with hL | ⟨ho, hn⟩
    · cases hL
    obtain ⟨ot, hot⟩ := Option.isSome_iff_exists.mp ho
    obtain ⟨nt, hnt⟩ := Option.isSome_iff_exists.mp hn
    have hne : neutralize Checker.devices o n
        = (withVMISpec o eraseDevicesFields, withVMISpec n eraseDevicesFields) := by
      simp [neutralize, devicesNeutralize, hot, hnt]
    have ht1 := withVMISpec_spec_template o eraseDevicesFields ot hot
    have ht2 := withVMISpec_spec_template n eraseDevicesFields nt hnt
    rw [hne]
    constructor
    · simp [footprintEqB, ht1, ht2, eraseDevicesFields]
    · simp only [neutralize, devicesNeutralize, ht1, ht2, Option.isNone_some,
        Bool.or_self, Bool.false_eq_true, if_false, withVMISpec_comp]
      rfl
  | cdrom =>
    rcases h with hL | ⟨ho, hn⟩
    · cases hL
    obtain ⟨ot, hot⟩ := Option.isSome_iff_exists.mp ho
    obtain ⟨nt, hnt⟩ := Option.isSome_iff_exists.mp hn
    have hne : neutralize Checker.cdrom o n
        = (withVMISpec o (fun s => { s with volumes := filterOutVolumes s.volumes (getHotpluggableCdromVolumeNames o ++ getHotpluggableCdromVolumeNames n) }),
           withVMISpec n (fun s => { s with volumes := filterOutVolumes s.volumes (getHotpluggableCdromVolumeNames o ++ getHotpluggableCdromVolumeNames n) })) := by
      simp [neutralize, cdromNeutralize, hot, hnt]
    have hoe : getHotpluggableCdromVolumes (neutralize Checker.cdrom o n).1 = [] := by
      rw [hne]
      exact hotpluggable_after_filterOut o ot _ hot (fun nm hm => List.mem_append_left _ hm)
    have hns : getHotpluggableCdromVolumes (neutralize Checker.cdrom o n).2 = [] := by
      rw [hne]
      exact hotpluggable_after_filterOut n nt _ hnt (fun nm hm => List.mem_append_right _ hm)
    have hnames1 : getHotpluggableCdromVolumeNames (neutralize Checker.cdrom o n).1 = [] := by
      simp [getHotpluggableCdromVolumeNames, hoe]
    have hnames2 : getHotpluggableCdromVolumeNames (neutralize Checker.cdrom o n).2 = [] := by
      simp [getHotpluggableCdromVolumeNames, hns]
    have ht1 : (neutralize Checker.cdrom o n).1.spec.template
        = some ⟨{ ot.spec with volumes := filterOutVolumes ot.spec.volumes (getHotpluggableCdromVolumeNames o ++ getHotpluggableCdromVolumeNames n) }⟩ := by
      rw [hne]
      exact withVMISpec_spec_template o _ ot hot
    have ht2 : (neutralize Checker.cdrom o n).2.spec.template
        = some ⟨{ nt.spec with volumes := filterOutVolumes nt.spec.volumes (getHotpluggableCdromVolumeNames o ++ getHotpluggableCdromVolumeNames n) }⟩ := by
      rw [hne]
      exact withVMISpec_spec_template n _ nt hnt
    constructor
    · simp [footprintEqB, hoe, hns]
    · obtain ⟨o2, n2, hpair⟩ : ∃ o2 n2, neutralize Checker.cdrom o n = (o2, n2) :=
        ⟨(neutralize Checker.cdrom o n).1, (neutralize Checker.cdrom o n).2, rfl⟩
      rw [hpair] at hnames1 hnames2 ht1 ht2 ⊢
      simp only [Prod.fst, Prod.snd] at hnames1 hnames2 ht1 ht2 ⊢
      simp [neutralize, cdromNeutralize, ht1, ht2, hnames1, hnames2, withVMISpec_filter_nil]

theorem neutralize_erases_and_idempotent_witness :
    footprintEqB Checker.storage
        (neutralize Checker.storage vmCd1 vmCd2).1
        (neutralize Checker.storage vmCd1 vmCd2).2 = true ∧
    neutralize Checker.storage
        (neutralize Checker.storage vmCd1 vmCd2).1
        (neutralize Checker.storage vmCd1 vmCd2).2
      = neutralize Checker.storage vmCd1 vmCd2 :=
  neutralize_erases_and_idempotent Checker.storage vmCd1 vmCd2 (Or.inr ⟨rfl, rfl⟩)

/-- `withVMISpec` never touches metadata. -/
theorem withVMISpec_metadata (vm : VirtualMachine) (f : VMISpec → VMISpec) :
    (withVMISpec vm f).metadata = vm.metadata := by
  rcases h : vm.spec.template with _ | t <;> simp [withVMISpec, h]

/-- A nil template on the old side makes CdromMedia report no change. -/
theorem cdromHasChanged_none_left (o n : VirtualMachine)
    (ho : o.spec.template = none) : cdromHasChanged o n = false := by
  rw [cdromHasChanged]
  by_cases hd : getCdromDisks o = getCdromDisks n
  · have hdn : getCdromDisks n = [] := by rw [← hd]; simp [getCdromDisks, ho]
    have hvn : getHotpluggableCdromVolumes n = [] := by
      rcases hn : n.spec.template with _ | t
      · simp [getHotpluggableCdromVolumes, hn]
      · have hfil : t.spec.domain.devices.disks.filter (fun d => d.cdrom.isSome) = [] := by
          simpa [getCdromDisks, hn] using hdn
        simp [getHotpluggableCdromVolumes, hn, hfil]
    have hvo : getHotpluggableCdromVolumes o = [] := by
      simp [getHotpluggableCdromVolumes, ho]
    simp [hd, hvo, hvn]
  · simp [hd]

/-- A nil template on the new side makes CdromMedia report no change. -/
theorem cdromHasChanged_none_right (o n : VirtualMachine)
    (hn : n.spec.template = none) : cdromHasChanged o n = false := by
  rw [cdromHasChanged]
  by_cases hd : getCdromDisks o = getCdromDisks n
  · have hdo : getCdromDisks o = [] := by rw [hd]; simp [getCdromDisks, hn]
    have hvo : getHotpluggableCdromVolumes o = [] := by
      rcases ho : o.spec.template with _ | t
      · simp [getHotpluggableCdromVolumes, ho]
      · have hfil : t.spec.domain.devices.disks.filter (fun d => d.cdrom.isSome) = [] := by
          simpa [getCdromDisks, ho] using hdo
        simp [getHotpluggableCdromVolumes, ho, hfil]
    have hvn : getHotpluggableCdromVolumes n = [] := by
      simp [getHotpluggableCdromVolumes, hn]
    simp [hd, hvo, hvn]
  · simp [hd]

/-- When CdromMedia reports a change, both snapshots carry a template. -/
theorem cdromHasChanged_true_isSome (o n : VirtualMachine)
    (h : cdromHasChanged o n = true) :
    o.spec.template.isSome = true ∧ n.spec.template.isSome = true := by
  constructor
  · rcases ho : o.spec.template with _ | t
    · rw [cdromHasChanged_none_left o n ho] at h
      cases h
    · rfl
  · rcases hn : n.spec.template with _ | t
    · rw [cdromHasChanged_none_right o n hn] at h
      cases h
    · rfl

/-- A CdromMedia change entails a storage change: the hotpluggable CD-ROM
volumes are filters of the volume lists under one common predicate once
the CD-ROM disks agree, so differing filters force differing volumes. -/
theorem storageHasChanged_of_cdrom (o n : VirtualMachine) (ot nt : TemplateSpec)
    (hot : o.spec.template = some ot) (hnt : n.spec.template = some nt)
    (h : cdromHasChanged o n = true) :
    storageHasChanged o n = some true := by
  have hsplit : getCdromDisks o = getCdromDisks n ∧
      getHotpluggableCdromVolumes o ≠ getHotpluggableCdromVolumes n := by
    by_cases hd : getCdromDisks o = getCdromDisks n
    · refine ⟨hd, ?_⟩
      simpa [cdromHasChanged, hd] using h
    · simp [cdromHasChanged, hd] at h
  obtain ⟨hd, hv⟩ := hsplit
  have hvols : ot.spec.volumes ≠ nt.spec.volumes := by
    intro he
    apply hv
    have hfil : ot.spec.domain.devices.disks.filter (fun d => d.cdrom.isSome)
        = nt.spec.domain.devices.disks.filter (fun d => d.cdrom.isSome) := by
      simpa [getCdromDisks, hot, hnt] using hd
    simp [getHotpluggableCdromVolumes, hot, hnt, hfil, he]
  simp [storageHasChanged, hot, hnt, hvols]

/-- Splitting the Step 3 loop over list concatenation. -/
theorem runCheckers_append (p : Checker → Bool) (l1 l2 : List Checker) :
    ∀ o n : VirtualMachine,
    runCheckers p (l1 ++ l2) o n
      = (runCheckers p l1 o n).bind (fun r => runCheckers p l2 r.1 r.2) := by
  induction l1 with
  | nil =>
    intro o n
    simp [runCheckers]
  | cons c rest ih =>
    intro o n
    simp only [List.cons_append, runCheckers]
    cases hhc : hasChanged c o n with
    | none => simp
    | some changed =>
      rcases hne : neutralize c o n with ⟨a, b⟩
      by_cases hcc : (changed && p c) = true <;> simp [hcc, hne, ih]

/-- The Step 3 loop only depends on the permissions of the checkers in its
list. -/
theorem runCheckers_congr (p q : Checker → Bool) :
    ∀ (l : List Checker) (o n : VirtualMachine),
    (∀ c ∈ l, p c = q c) →
    runCheckers p l o n = runCheckers q l o n := by
  intro l
  induction l with
  | nil => intro o n _; rfl
  | cons c rest ih =>
    intro o n h
    have hc := h c (List.mem_cons_self c rest)
    have hrest : ∀ c2 ∈ rest, p c2 = q c2 := fun c2 hm => h c2 (List.mem_cons_of_mem c hm)
    simp only [runCheckers, hc]
    cases hasChanged c o n with
    | none => rfl
    | some changed =>
      rcases hne : neutralize c o n with ⟨a, b⟩
      by_cases hcc : (changed && q c) = true <;> simp [hcc, hne, ih _ _ hrest]

/-- Two template specs that already agree on the storage footprint are
equal exactly when their storage-erased forms are equal. -/
theorem eq_iff_eraseStorage (a b : VMISpec)
    (hv : a.volumes = b.volumes)
    (hd : a.domain.devices.disks = b.domain.devices.disks)
    (hf : a.domain.devices.filesystems = b.domain.devices.filesystems) :
    (a = b) ↔ (eraseStorageFields a = eraseStorageFields b) := by
  obtain ⟨⟨⟨d1, f1, i1, g1, hd1, w1, t1, in1⟩, c1, r1, m1⟩, v1, nw1, ns1⟩ := a
  obtain ⟨⟨⟨d2, f2, i2, g2, hd2, w2, t2, in2⟩, c2, r2, m2⟩, v2, nw2, ns2⟩ := b
  simp only at hv hd hf
  subst hv hd hf
  simp [eraseStorageFields, VMISpec.mk.injEq, Domain.mk.injEq, Devices.mk.injEq]

/-- Running the granted storage checker after some volumes were filtered
out of both copies produces the same verdict as running it on the
unfiltered copies when the storage diff survives: either way the residual
state is verdict-equivalent to the fully storage-erased copies. -/
theorem storage_step_after_filter (p : Checker → Bool) (hps : p Checker.storage = true)
    (o n : VirtualMachine) (ot nt : TemplateSpec)
    (hot : o.spec.template = some ot) (hnt : n.spec.template = some nt) (U : List String) :
    (runCheckers p [Checker.storage]
        (withVMISpec o (fun s => { s with volumes := filterOutVolumes s.volumes U }))
        (withVMISpec n (fun s => { s with volumes := filterOutVolumes s.volumes U }))).map
      (fun r => finalVerdict r.1 r.2)
      = some (finalVerdict (withVMISpec o eraseStorageFields)
          (withVMISpec n eraseStorageFields)) := by
  have ht1 := withVMISpec_spec_template o
    (fun s => { s with volumes := filterOutVolumes s.volumes U }) ot hot
  have ht2 := withVMISpec_spec_template n
    (fun s => { s with volumes := filterOutVolumes s.volumes U }) nt hnt
  have hsc : storageHasChanged
      (withVMISpec o (fun s => { s with volumes := filterOutVolumes s.volumes U }))
      (withVMISpec n (fun s => { s with volumes := filterOutVolumes s.volumes U }))
      = some (decide (filterOutVolumes ot.spec.volumes U ≠ filterOutVolumes nt.spec.volumes U)
          || decide (ot.spec.domain.devices.disks ≠ nt.spec.domain.devices.disks)
          || decide (ot.spec.domain.devices.filesystems ≠ nt.spec.domain.devices.filesystems)) := by
    simp [storageHasChanged, ht1, ht2]
  by_cases hall : filterOutVolumes ot.spec.volumes U = filterOutVolumes nt.spec.volumes U
      ∧ ot.spec.domain.devices.disks = nt.spec.domain.devices.disks
      ∧ ot.spec.domain.devices.filesystems = nt.spec.domain.devices.filesystems
  · -- no residual storage diff: the checker does not fire, but the states
    -- are verdict-equivalent to the erased ones
    obtain ⟨hveq, hdeq, hfeq⟩ := hall
    have hrun : runCheckers p [Checker.storage]
        (withVMISpec o (fun s => { s with volumes := filterOutVolumes s.volumes U }))
        (withVMISpec n (fun s => { s with volumes := filterOutVolumes s.volumes U }))
        = some (withVMISpec o (fun s => { s with volumes := filterOutVolumes s.volumes U }),
            withVMISpec n (fun s => { s with volumes := filterOutVolumes s.volumes U })) := by
      simp [runCheckers, hasChanged, hsc, hveq, hdeq, hfeq]
    have hiff0 := eq_iff_eraseStorage
      ((fun s => { s with volumes := filterOutVolumes s.volumes U }) ot.spec)
      ((fun s => { s with volumes := filterOutVolumes s.volumes U }) nt.spec)
      hveq hdeq hfeq
    have hiff : ((fun s => { s with volumes := filterOutVolumes s.volumes U }) ot.spec
          = (fun s => { s with volumes := filterOutVolumes s.volumes U }) nt.spec)
        ↔ (eraseStorageFields ot.spec = eraseStorageFields nt.spec) := hiff0
    have hspec_iff : ((withVMISpec o (fun s => { s with volumes := filterOutVolumes s.volumes U })).spec
          = (withVMISpec n (fun s => { s with volumes := filterOutVolumes s.volumes U })).spec)
        ↔ ((withVMISpec o eraseStorageFields).spec = (withVMISpec n eraseStorageFields).spec) := by
      simp only [withVMISpec, hot, hnt]
      simp only [VMSpec.mk.injEq, TemplateSpec.mk.injEq, Option.some.injEq]
      constructor
      · rintro ⟨ha, hb, hc, hdd⟩
        exact ⟨ha, hb, hiff.mp hc, hdd⟩
      · rintro ⟨ha, hb, hc, hdd⟩
        exact ⟨ha, hb, hiff.mpr hc, hdd⟩
    rw [hrun]
    rw [Option.map_some']
    rw [finalVerdict_eq, finalVerdict_eq]
    simp only [withVMISpec_metadata]
    by_cases hm : normalizeSystemMetadata o.metadata = normalizeSystemMetadata n.metadata
    · by_cases hsp : (withVMISpec o (fun s => { s with volumes := filterOutVolumes s.volumes U })).spec
          = (withVMISpec n (fun s => { s with volumes := filterOutVolumes s.volumes U })).spec
      · have hsp2 := hspec_iff.mp hsp
        simp [hm, hsp, hsp2]
      · have hsp2 : ¬ ((withVMISpec o eraseStorageFields).spec
            = (withVMISpec n eraseStorageFields).spec) := fun hh => hsp (hspec_iff.mpr hh)
        simp [hm, hsp, hsp2]
    · simp [hm]
  · -- a storage diff survives the filtering: the granted checker erases it
    have hb : (decide (filterOutVolumes ot.spec.volumes U ≠ filterOutVolumes nt.spec.volumes U)
        || decide (ot.spec.domain.devices.disks ≠ nt.spec.domain.devices.disks)
        || decide (ot.spec.domain.devices.filesystems ≠ nt.spec.domain.devices.filesystems))
        = true := by
      by_contra hbf
      apply hall
      simp at hbf
      exact ⟨hbf.1.1, hbf.1.2, hbf.2⟩
    have hrun : runCheckers p [Checker.storage]
        (withVMISpec o (fun s => { s with volumes := filterOutVolumes s.volumes U }))
        (withVMISpec n (fun s => { s with volumes := filterOutVolumes s.volumes U }))
        = some (withVMISpec o eraseStorageFields, withVMISpec n eraseStorageFields) := by
      simp only [runCheckers, hasChanged, hsc, hb, hps, Bool.and_self, if_true]
      have hguard : storageNeutralize
          (withVMISpec o (fun s => { s with volumes := filterOutVolumes s.volumes U }))
          (withVMISpec n (fun s => { s with volumes := filterOutVolumes s.volumes U }))
          = (withVMISpec o eraseStorageFields, withVMISpec n eraseStorageFields) := by
        simp only [storageNeutralize, ht1, ht2, Option.isNone_some, Bool.or_self,
          Bool.false_eq_true, if_false, withVMISpec_comp]
        rfl
      simp [neutralize, hguard]
    rw [hrun]
    simp

/-- The `[cdrom, storage]` tail of the pipeline yields the same verdict
whether or not the cdrom grant accompanies the storage grant. -/
theorem cdrom_storage_tail_equiv (p q : Checker → Bool) (o n : VirtualMachine)
    (hpc : p Checker.cdrom = true) (hps : p Checker.storage = true)
    (hqc : q Checker.cdrom = false) (hqs : q Checker.storage = true) :
    (runCheckers p [Checker.cdrom, Checker.storage] o n).map (fun r => finalVerdict r.1 r.2)
      = (runCheckers q [Checker.cdrom, Checker.storage] o n).map
          (fun r => finalVerdict r.1 r.2) := by
  by_cases hch : cdromHasChanged o n = true
  · obtain ⟨hto, htn⟩ := cdromHasChanged_true_isSome o n hch
    obtain ⟨ot, hot⟩ := Option.isSome_iff_exists.mp hto
    obtain ⟨nt, hnt⟩ := Option.isSome_iff_exists.mp htn
    have hst : storageHasChanged o n = some true :=
      storageHasChanged_of_cdrom o n ot nt hot hnt hch
    have hsn : storageNeutralize o n
        = (withVMISpec o eraseStorageFields, withVMISpec n eraseStorageFields) := by
      simp [storageNeutralize, hot, hnt]
    have hq : runCheckers q [Checker.cdrom, Checker.storage] o n
        = some (withVMISpec o eraseStorageFields, withVMISpec n eraseStorageFields) := by
      simp [runCheckers, hasChanged, hch, hqc, hqs, hst, neutralize, hsn]
    have hcn : cdromNeutralize o n
        = (withVMISpec o (fun s => { s with volumes := filterOutVolumes s.volumes (getHotpluggableCdromVolumeNames o ++ getHotpluggableCdromVolumeNames n) }),
           withVMISpec n (fun s => { s with volumes := filterOutVolumes s.volumes (getHotpluggableCdromVolumeNames o ++ getHotpluggableCdromVolumeNames n) })) := by
      simp [cdromNeutralize, hot, hnt]
    have hp : runCheckers p [Checker.cdrom, Checker.storage] o n
        = runCheckers p [Checker.storage]
            (withVMISpec o (fun s => { s with volumes := filterOutVolumes s.volumes (getHotpluggableCdromVolumeNames o ++ getHotpluggableCdromVolumeNames n) }))
            (withVMISpec n (fun s => { s with volumes := filterOutVolumes s.volumes (getHotpluggableCdromVolumeNames o ++ getHotpluggableCdromVolumeNames n) })) := by
      simp [runCheckers, hasChanged, hch, hpc, neutralize, hcn]
    rw [hp, hq]
    rw [storage_step_after_filter p hps o n ot nt hot hnt _]
    rw [Option.map_some']
  · have hch2 : cdromHasChanged o n = false := by
      cases hcc : cdromHasChanged o n
      · rfl
      · exact absurd hcc hch
    have hred : ∀ r : Checker → Bool, runCheckers r [Checker.cdrom, Checker.storage] o n
        = runCheckers r [Checker.storage] o n := by
      intro r
      simp [runCheckers, hasChanged, hch2]
    rw [hred p, hred q]
    rw [runCheckers_congr p q [Checker.storage] o n ?_]
    intro c2 hm
    have : c2 = Checker.storage := by simpa using hm
    rw [this, hps, hqs]

/-- C4: granting both cdrom-user and storage-admin yields the same
verdict as granting storage-admin alone, for every pair of snapshots and
any agreement on the remaining tokens. -/
theorem hierarchical_equivalence (o1 o2 : Oracle) (oldVM newVM : VirtualMachine)
    (hagree : ∀ s, s ≠ subresource Checker.cdrom → s ≠ subresource Checker.storage →
      o1 s = o2 s)
    (h1c : o1 (subresource Checker.cdrom) = .ok true)
    (h1s : o1 (subresource Checker.storage) = .ok true)
    (h2c : o2 (subresource Checker.cdrom) = .ok false)
    (h2s : o2 (subresource Checker.storage) = .ok true) :
    (validateUpdate o1 oldVM newVM).1 = (validateUpdate o2 oldVM newVM).1 := by
  have hfa : o1 fullAdminSub = o2 fullAdminSub := hagree _ (by decide) (by decide)
  have e1 : o1 (subresource Checker.network) = o2 (subresource Checker.network) :=
    hagree _ (by decide) (by decide)
  have e2 : o1 (subresource Checker.compute) = o2 (subresource Checker.compute) :=
    hagree _ (by decide) (by decide)
  have e3 : o1 (subresource Checker.devices) = o2 (subresource Checker.devices) :=
    hagree _ (by decide) (by decide)
  have e4 : o1 (subresource Checker.lifecycle) = o2 (subresource Checker.lifecycle) :=
    hagree _ (by decide) (by decide)
  cases hv : o2 fullAdminSub with
  | error e =>
    have h1 : o1 fullAdminSub = .error e := hfa.trans hv
    simp [validateUpdate, h1, hv]
  | ok bfa =>
    have h1 : o1 fullAdminSub = .ok bfa := hfa.trans hv
    cases bfa with
    | true => simp [validateUpdate, h1, hv]
    | false =>
      cases hnet : o2 (subresource Checker.network) with
      | error err =>
        have ceq : checkPerms o1 checkerOrder = checkPerms o2 checkerOrder := by
          simp [checkPerms, checkerOrder, e1, hnet]
        simp only [validateUpdate, h1, hv, ceq]
      | ok b1 =>
      cases hcom : o2 (subresource Checker.compute) with
      | error err =>
        have ceq : checkPerms o1 checkerOrder = checkPerms o2 checkerOrder := by
          simp [checkPerms, checkerOrder, e1, e2, hnet, hcom]
        simp only [validateUpdate, h1, hv, ceq]
      | ok b2 =>
      cases hdev : o2 (subresource Checker.devices) with
      | error err =>
        have ceq : checkPerms o1 checkerOrder = checkPerms o2 checkerOrder := by
          simp [checkPerms, checkerOrder, e1, e2, e3, hnet, hcom, hdev]
        simp only [validateUpdate, h1, hv, ceq]
      | ok b3 =>
      cases hlif : o2 (subresource Checker.lifecycle) with
      | error err =>
        have ceq : checkPerms o1 checkerOrder = checkPerms o2 checkerOrder := by
          simp [checkPerms, checkerOrder, e1, e2, e3, e4, hnet, hcom, hdev, hlif]
        simp only [validateUpdate, h1, hv, ceq]
      | ok b4 =>
        have hcp1 : checkPerms o1 checkerOrder
            = (.ok [(Checker.network, b1), (Checker.compute, b2), (Checker.devices, b3),
                (Checker.lifecycle, b4), (Checker.cdrom, true), (Checker.storage, true)],
               checkerOrder.map subresource) := by
          have hok : ∀ c ∈ checkerOrder, o1 (subresource c)
              = .ok (lookupPerm [(Checker.network, b1), (Checker.compute, b2),
                  (Checker.devices, b3), (Checker.lifecycle, b4), (Checker.cdrom, true),
                  (Checker.storage, true)] c) := by
            intro c hc
            simp only [checkerOrder, List.mem_cons, List.not_mem_nil, or_false] at hc
            rcases hc with rfl | rfl | rfl | rfl | rfl | rfl
            · exact (e1.trans hnet)
            · exact (e2.trans hcom)
            · exact (e3.trans hdev)
            · exact (e4.trans hlif)
            · exact h1c
            · exact h1s
          have := checkPerms_ok o1
            (lookupPerm [(Checker.network, b1), (Checker.compute, b2), (Checker.devices, b3),
              (Checker.lifecycle, b4), (Checker.cdrom, true), (Checker.storage, true)]) hok
          simpa [checkerOrder, lookupPerm] using this
        have hcp2 : checkPerms o2 checkerOrder
            = (.ok [(Checker.network, b1), (Checker.compute, b2), (Checker.devices, b3),
                (Checker.lifecycle, b4), (Checker.cdrom, false), (Checker.storage, true)],
               checkerOrder.map subresource) := by
          have hok : ∀ c ∈ checkerOrder, o2 (subresource c)
              = .ok (lookupPerm [(Checker.network, b1), (Checker.compute, b2),
                  (Checker.devices, b3), (Checker.lifecycle, b4), (Checker.cdrom, false),
                  (Checker.storage, true)] c) := by
            intro c hc
            simp only [checkerOrder, List.mem_cons, List.not_mem_nil, or_false] at hc
            rcases hc with rfl | rfl | rfl | rfl | rfl | rfl
            · exact hnet
            · exact hcom
            · exact hdev
            · exact hlif
            · exact h2c
            · exact h2s
          have := checkPerms_ok o2
            (lookupPerm [(Checker.network, b1), (Checker.compute, b2), (Checker.devices, b3),
              (Checker.lifecycle, b4), (Checker.cdrom, false), (Checker.storage, true)]) hok
          simpa [checkerOrder, lookupPerm] using this
        simp only [validateUpdate, h1, hv]
        rw [hcp1, hcp2]
        simp only [List.any_cons, List.any_nil, Bool.or_true, Bool.or_false, Bool.not_true,
          Bool.false_eq_true, if_false]
        have hsplit1 : runCheckers
            (lookupPerm [(Checker.network, b1), (Checker.compute, b2), (Checker.devices, b3),
              (Checker.lifecycle, b4), (Checker.cdrom, true), (Checker.storage, true)])
            checkerOrder oldVM newVM
            = (runCheckers
                (lookupPerm [(Checker.network, b1), (Checker.compute, b2), (Checker.devices, b3),
                  (Checker.lifecycle, b4), (Checker.cdrom, true), (Checker.storage, true)])
                [Checker.network, Checker.compute, Checker.devices, Checker.lifecycle]
                oldVM newVM).bind
              (fun r => runCheckers
                (lookupPerm [(Checker.network, b1), (Checker.compute, b2), (Checker.devices, b3),
                  (Checker.lifecycle, b4), (Checker.cdrom, true), (Checker.storage, true)])
                [Checker.cdrom, Checker.storage] r.1 r.2) :=
          runCheckers_append _ [Checker.network, Checker.compute, Checker.devices,
            Checker.lifecycle] [Checker.cdrom, Checker.storage] oldVM newVM
        have hsplit2 : runCheckers
            (lookupPerm [(Checker.network, b1), (Checker.compute, b2), (Checker.devices, b3),
              (Checker.lifecycle, b4), (Checker.cdrom, false), (Checker.storage, true)])
            checkerOrder oldVM newVM
            = (runCheckers
                (lookupPerm [(Checker.network, b1), (Checker.compute, b2), (Checker.devices, b3),
                  (Checker.lifecycle, b4), (Checker.cdrom, false), (Checker.storage, true)])
                [Checker.network, Checker.compute, Checker.devices, Checker.lifecycle]
                oldVM newVM).bind
              (fun r => runCheckers
                (lookupPerm [(Checker.network, b1), (Checker.compute, b2), (Checker.devices, b3),
                  (Checker.lifecycle, b4), (Checker.cdrom, false), (Checker.storage, true)])
                [Checker.cdrom, Checker.storage] r.1 r.2) :=
          runCheckers_append _ [Checker.network, Checker.compute, Checker.devices,
            Checker.lifecycle] [Checker.cdrom, Checker.storage] oldVM newVM
        rw [hsplit1, hsplit2]
        have hfront : runCheckers
            (lookupPerm [(Checker.network, b1), (Checker.compute, b2), (Checker.devices, b3),
              (Checker.lifecycle, b4), (Checker.cdrom, true), (Checker.storage, true)])
            [Checker.network, Checker.compute, Checker.devices, Checker.lifecycle] oldVM newVM
            = runCheckers
            (lookupPerm [(Checker.network, b1), (Checker.compute, b2), (Checker.devices, b3),
              (Checker.lifecycle, b4), (Checker.cdrom, false), (Checker.storage, true)])
            [Checker.network, Checker.compute, Checker.devices, Checker.lifecycle]
            oldVM newVM := by
          apply runCheckers_congr
          intro c hc
          simp only [List.mem_cons, List.not_mem_nil, or_false] at hc
          rcases hc with rfl | rfl | rfl | rfl <;> rfl
        rw [hfront]
        cases hres : runCheckers
            (lookupPerm [(Checker.network, b1), (Checker.compute, b2), (Checker.devices, b3),
              (Checker.lifecycle, b4), (Checker.cdrom, false), (Checker.storage, true)])
            [Checker.network, Checker.compute, Checker.devices, Checker.lifecycle]
            oldVM newVM with
        | none => simp
        | some r =>
          obtain ⟨a, c⟩ := r
          simp only [Option.some_bind]
          have htail := cdrom_storage_tail_equiv
            (lookupPerm [(Checker.network, b1), (Checker.compute, b2), (Checker.devices, b3),
              (Checker.lifecycle, b4), (Checker.cdrom, true), (Checker.storage, true)])
            (lookupPerm [(Checker.network, b1), (Checker.compute, b2), (Checker.devices, b3),
              (Checker.lifecycle, b4), (Checker.cdrom, false), (Checker.storage, true)])
            a c rfl rfl rfl rfl
          rcases hr1 : runCheckers
              (lookupPerm [(Checker.network, b1), (Checker.compute, b2), (Checker.devices, b3),
                (Checker.lifecycle, b4), (Checker.cdrom, true), (Checker.storage, true)])
              [Checker.cdrom, Checker.storage] a c with _ | ⟨x1, y1⟩ <;>
            rcases hr2 : runCheckers
              (lookupPerm [(Checker.network, b1), (Checker.compute, b2), (Checker.devices, b3),
                (Checker.lifecycle, b4), (Checker.cdrom, false), (Checker.storage, true)])
              [Checker.cdrom, Checker.storage] a c with _ | ⟨x2, y2⟩ <;>
            rw [hr1, hr2] at htail <;>
            simp only [Option.map_some', Option.map_none'] at htail <;>
            simp [htail]

theorem hierarchical_equivalence_witness :
    (validateUpdate oracleCdromStorage vmCd1 vmCd3).1
      = (validateUpdate oracleStorage vmCd1 vmCd3).1 :=
  hierarchical_equivalence oracleCdromStorage oracleStorage vmCd1 vmCd3
    (fun s hs1 hs2 => by
      simp only [subresource] at hs1
      have h1 : (s == "virtualmachines/cdrom-user") = false := beq_eq_false_iff_ne.mpr hs1
      simp [oracleCdromStorage, oracleStorage, h1])
    rfl rfl rfl rfl
